import Mathlib

/-
Verification of the instrument protocol engine (instrument_protocol.py).

Shallow embedding conventions:
* Python `str` payloads carried over the transport (buffers, prompts, wire
  strings) are modelled as `List Char` (`Bytes`); parameter and command names
  stay `String`.
* Python dicts keyed by strings are association lists with last-write-wins
  update (`dictSet`) and `dict.get`-style lookup (`dictGet`).
* Exceptions become `Except` results; when a Python method mutates `self`
  before raising, the model returns the mutated state next to the error.
* Wall-clock time is discretised in tenths of a second: `time.sleep(1)`
  advances ten ticks, `time.sleep(.1)` advances one tick, and the bytes the
  transport delivers during tick `t` are `arrive t` (they are appended to both
  accumulators, exactly as `_got_data` does).
* External collaborators (EthernetDeviceLogger, LoggerClient) are modelled by
  the constructor arguments the protocol passes to them, which is the only way
  `configure` interacts with them.
-/

namespace MI

/-- Success marker `InstErrorCode.OK` from ion.services.mi.common. -/
inductive InstErrorCode
  | OK
deriving DecidableEq

/-- The exceptions the protocol code raises. -/
inductive Err
  | connection   -- InstrumentConnectionException
  | timeout      -- InstrumentTimeoutException
  | badCommand   -- InstrumentProtocolException(InstErrorCode.BAD_DRIVER_COMMAND)
deriving DecidableEq

/-- Python runtime errors that surface when the code breaks its own data shape. -/
inductive PyErr
  | keyError        -- KeyError from a missing dict key
  | attributeError  -- AttributeError from projecting .value off a non-descriptor
deriving DecidableEq

/-- Transported bytes: Python str payloads as lists of characters. -/
abbrev Bytes := List Char

/-- Observable transport actions performed by the engine. `wake` records one
iteration of the wakeup loop (the default `_send_wakeup` transmits nothing);
`send` records `_logger_client.send(...)` with the bytes transmitted. -/
inductive Action
  | wake
  | send (data : Bytes)
deriving DecidableEq

/-- Actions performed by `connect`. -/
inductive ConnAction
  | launchProcess (pid : Nat)  -- `self._logger.launch_process()`
  | attach                     -- `self.attach()` registering the data callback
deriving DecidableEq

/-! ## InterfaceType (source lines 32-36) -/

def InterfaceType.ETHERNET : String := "ethernet"
def InterfaceType.SLOW_ETHERNET : String := "slow_ethernet"
def InterfaceType.SERIAL : String := "serial"

/-! ## Connection lifecycle (InstrumentProtocol, source lines 63-213) -/

/-- External collaborator modelled by the constructor arguments `configure`
passes: EthernetDeviceLogger(device_addr, device_port, server_port,
write_delay=...). The slow-ethernet branch passes write_delay=0.1. -/
structure EthernetDeviceLogger where
  device_addr : String
  device_port : Nat
  server_port : Nat
  write_delay : ℚ
deriving DecidableEq

/-- External collaborator modelled by its constructor arguments:
LoggerClient(server_addr, server_port). -/
structure LoggerClient where
  server_addr : String
  server_port : Nat
deriving DecidableEq

/-- The transport-handle state of an InstrumentProtocol: `self._logger` and
`self._logger_client` (source lines 80-81), both None until configured. -/
structure ConnHandles where
  _logger : Option EthernetDeviceLogger
  _logger_client : Option LoggerClient
deriving DecidableEq

/-- The configuration mapping passed to `configure` (source lines 117-135). -/
structure CommConfig where
  method : String
  device_addr : String
  device_port : Nat
  server_addr : String
  server_port : Nat

/-- Translation of InstrumentProtocol.configure (source lines 108-145).
The source is an `if` statement (ethernet) followed by a separate
`if`/`elif`/`else` chain (slow_ethernet / serial / other): when method is
"ethernet" the first `if` assigns the handles, and then the second chain's
`else` raises InstrumentConnectionException. The returned pair is the
post-call state of (_logger, _logger_client) together with the outcome. -/
def configure (s : ConnHandles) (c : CommConfig) : ConnHandles × Except Err InstErrorCode :=
  let s1 :=
    if c.method = InterfaceType.ETHERNET then
      { _logger := some ⟨c.device_addr, c.device_port, c.server_port, 0⟩,
        _logger_client := some ⟨c.server_addr, c.server_port⟩ }
    else s
  if c.method = InterfaceType.SLOW_ETHERNET then
    ({ _logger := some ⟨c.device_addr, c.device_port, c.server_port, 1/10⟩,
       _logger_client := some ⟨c.server_addr, c.server_port⟩ }, Except.ok InstErrorCode.OK)
  else if c.method = InterfaceType.SERIAL then
    (s1, Except.error Err.connection)
  else
    (s1, Except.error Err.connection)

/-- Truthiness of the `get_pid` result, as tested by `if not logger_pid`
(source line 158): None and 0 are falsy. -/
def pidTruthy : Option Nat → Bool
  | none => false
  | some n => decide (n ≠ 0)

/-- Translation of InstrumentProtocol.connect (source lines 147-176).
`pidQuery` is the result of `self._logger.get_pid()`; `launchedPid` is the pid
of the process `launch_process()` starts (the settle sleeps and the
`os.wait`/`popen.wait` reaping are elided as they produce no observable
action on the transport). The function returns `logger_pid` — the value of
the pre-launch query — per source line 176. -/
def connect (pidQuery : Option Nat) (launchedPid : Nat) :
    List ConnAction × Except Err (Option Nat) :=
  if pidTruthy pidQuery then
    ([], Except.error Err.connection)
  else
    ([ConnAction.launchProcess launchedPid, ConnAction.attach], Except.ok pidQuery)

/-! ## ParameterDictVal (source lines 38-60) -/

/-- Translation of ParameterDictVal. `regexMatch` abstracts
`re.compile(pattern).match` — the prefix-anchored matcher produced from the
descriptor's pattern, returning the match object (type `M`) on success. -/
structure ParameterDictVal (M V : Type) where
  name : String
  regexMatch : String → Option M
  f_getval : M → V
  f_format : V → String
  value : Option V

/-- Translation of ParameterDictVal.update (source lines 51-60): on a match,
`self.value = self.f_getval(match)` and the name is returned; otherwise the
descriptor is untouched and False (here `none`) is returned. -/
def ParameterDictVal.update (d : ParameterDictVal M V) (input : String) :
    ParameterDictVal M V × Option String :=
  match d.regexMatch input with
  | some m => ({ d with value := some (d.f_getval m) }, some d.name)
  | none => (d, none)

/-! ## Python dict helpers -/

/-- Python `d[k] = v`: overwrite the existing binding or append a new one. -/
def dictSet (xs : List (String × β)) (k : String) (v : β) : List (String × β) :=
  if xs.any (fun kv => kv.1 = k) then
    xs.map (fun kv => if kv.1 = k then (k, v) else kv)
  else
    xs ++ [(k, v)]

/-- Python `d.get(k, None)`. -/
def dictGet (xs : List (String × β)) (k : String) : Option β :=
  (xs.find? (fun kv => kv.1 = k)).map (fun kv => kv.2)

/-! ## Parameter dictionary of CommandResponseInstrumentProtocol
(source lines 618-658) -/

/-- An entry of `self._parameters`. Python typing is dynamic: after
`_set_param_dict` runs, the entry bound to the name is the bare value, no
longer a ParameterDictVal, and the two shapes must be told apart. -/
inductive PEntry (M V : Type)
  | desc (d : ParameterDictVal M V)
  | raw (v : V)

/-- Translation of _set_param_dict (source lines 642-645):
`self._parameters[name] = value` stores the bare value itself in place of the
descriptor. -/
def set_param_dict (params : List (String × PEntry M V)) (name : String) (value : V) :
    List (String × PEntry M V) :=
  dictSet params name (PEntry.raw value)

/-- Translation of _get_param_dict (source lines 624-627):
`return self._parameters[name].value`. A missing key raises KeyError; a bare
value stored by `_set_param_dict` has no `.value` attribute, so the projection
raises AttributeError. -/
def get_param_dict (params : List (String × PEntry M V)) (name : String) :
    Except PyErr (Option V) :=
  match dictGet params name with
  | none => Except.error PyErr.keyError
  | some (PEntry.desc d) => Except.ok d.value
  | some (PEntry.raw _) => Except.error PyErr.attributeError

/-- Translation of _add_param_dict (source lines 618-622): registers a fresh
descriptor under its name. -/
def add_param_dict (params : List (String × PEntry M V)) (d : ParameterDictVal M V) :
    List (String × PEntry M V) :=
  dictSet params d.name (PEntry.desc d)

/-! ## Buffering layer (source lines 419-421 and 449-454)

The engine state carries the two accumulators `_linebuf` and `_promptbuf` and
the current time in tenths of a second. `recv` is one clock tick: the bytes
the transport delivers during that tick are appended to both buffers by the
`_got_data` callback (source lines 449-454). -/

structure PState where
  linebuf : Bytes
  promptbuf : Bytes
  time : Nat
deriving DecidableEq

/-- One tick (0.1 s): `_got_data(arrive t)` then the clock advances. -/
def recv (arrive : Nat → Bytes) (s : PState) : PState :=
  { linebuf := s.linebuf ++ arrive s.time,
    promptbuf := s.promptbuf ++ arrive s.time,
    time := s.time + 1 }

/-- `n` consecutive ticks. `time.sleep(1)` is `recvN arrive 10`,
`time.sleep(.1)` is `recvN arrive 1`. -/
def recvN (arrive : Nat → Bytes) : Nat → PState → PState
  | 0, s => s
  | n + 1, s => recvN arrive n (recv arrive s)

/-! ## Wakeup (source lines 460-493) -/

/-- Translation of the `while True` loop of _wakeup (source lines 481-493).
Each iteration: `_send_wakeup()` (a no-op transmitting nothing by default,
recorded as `Action.wake`), `time.sleep(1)` (ten ticks), then the scan
`for item in self.prompts.list(): if self._promptbuf.endswith(item)`. The
Python guard `time.time() > starttime + timeout` compares wall seconds: after
iteration i (0-based) the elapsed time is i+1 seconds, so the guard fires
exactly when i+1 > timeout; `remaining = timeout - i` counts the iterations
the guard still allows, so `remaining = 0` is that guard. -/
def wakeupGo (prompts : List Bytes) (arrive : Nat → Bytes) :
    Nat → PState → PState × List Action × Except Err Bytes
  | remaining, s =>
    let s1 := recvN arrive 10 s
    match prompts.find? (fun p => p.isSuffixOf s1.promptbuf) with
    | some p => (s1, [Action.wake], Except.ok p)
    | none =>
      match remaining with
      | 0 => (s1, [Action.wake], Except.error Err.timeout)
      | r + 1 =>
        let w := wakeupGo prompts arrive r s1
        (w.1, Action.wake :: w.2.1, w.2.2)

/-- Translation of _wakeup (source lines 467-493): clear the prompt buffer
(`self._promptbuf = ''`), then run the wake loop. `timeout` is in seconds. -/
def wakeup (prompts : List Bytes) (arrive : Nat → Bytes) (timeout : Nat) (s : PState) :
    PState × List Action × Except Err Bytes :=
  wakeupGo prompts arrive timeout { s with promptbuf := [] }

/-! ## Response wait (source lines 509-535) -/

/-- The inner `for item in prompt_list` of _get_response: check whether the
prompt buffer ends with the item; on failure `time.sleep(.1)` (one tick,
during which more bytes may arrive) and move to the next item. -/
def scanPrompts (arrive : Nat → Bytes) : List Bytes → PState → PState × Option Bytes
  | [], s => (s, none)
  | p :: ps, s =>
    if p.isSuffixOf s.promptbuf then (s, some p)
    else scanPrompts arrive ps (recv arrive s)

/-- The `while True` loop of _get_response. `t0` is `starttime`, `tmax` the
timeout in ticks; the guard `time.time() > starttime + timeout` is checked
after each full scan. `fuel` bounds the outer iterations: every scan over a
nonempty prompt list that fails advances the clock by at least one tick, so
`tmax + 1` outer iterations always reach the time guard; the fuel-exhaustion
branch (reachable only for an empty prompt list, where the Python loop spins
until wall-clock time alone exceeds the bound) also raises the timeout. -/
def getRespGo (arrive : Nat → Bytes) (promptList : List Bytes) (t0 tmax : Nat) :
    Nat → PState → PState × Except Err (Bytes × Bytes)
  | fuel, s =>
    match scanPrompts arrive promptList s with
    | (s1, some p) => (s1, Except.ok (p, s1.linebuf))
    | (s1, none) =>
      if s1.time > t0 + tmax then (s1, Except.error Err.timeout)
      else
        match fuel with
        | 0 => (s1, Except.error Err.timeout)
        | f + 1 => getRespGo arrive promptList t0 tmax f s1

/-- Translation of _get_response (source lines 509-535): with
`expected_prompt=None` the configured prompt set is scanned, otherwise the
singleton `[expected_prompt]`; on a match returns
`(matched prompt, self._linebuf)`. `timeout` is in seconds (ten ticks). -/
def getResponse (arrive : Nat → Bytes) (prompts : List Bytes) (timeout : Nat)
    (expected_prompt : Option Bytes) (s : PState) : PState × Except Err (Bytes × Bytes) :=
  let promptList :=
    match expected_prompt with
    | none => prompts
    | some ep => [ep]
  getRespGo arrive promptList s.time (10 * timeout) (10 * timeout + 1) s

/-! ## Command-response engine (source lines 404-612) -/

/-- The tables and constants of a CommandResponseInstrumentProtocol
(source lines 411-425). Builders are `func(cmd, *args) -> wire string`;
response handlers are `func(result, prompt) -> parsed value`. -/
structure CRProto where
  prompts : List Bytes
  eoln : Bytes
  build_handlers : List (String × (String → List String → Bytes))
  response_handlers : List (String × (Bytes → Bytes → Bytes))

/-- Translation of _do_cmd_resp (source lines 537-581). Returns the post-call
buffer state, the transport actions performed (wake cycles and sends), and
either an error or the response handler's result (`none` when no handler is
registered). -/
def do_cmd_resp (proto : CRProto) (arrive : Nat → Bytes) (cmd : String)
    (args : List String) (timeout : Nat) (expected_prompt : Option Bytes) (s : PState) :
    PState × List Action × Except Err (Option Bytes) :=
  match dictGet proto.build_handlers cmd with
  | none => (s, [], Except.error Err.badCommand)
  | some build =>
    let cmd_line := build cmd args
    match wakeup proto.prompts arrive timeout s with
    | (s1, acts1, Except.error e) => (s1, acts1, Except.error e)
    | (s1, acts1, Except.ok _prompt) =>
      -- source lines 563-565: clear line AND prompt buffers, then send
      let s2 : PState := { s1 with linebuf := [], promptbuf := [] }
      match getResponse arrive proto.prompts timeout expected_prompt s2 with
      | (s3, Except.error e) => (s3, acts1 ++ [Action.send cmd_line], Except.error e)
      | (s3, Except.ok (prompt, result)) =>
        match dictGet proto.response_handlers cmd with
        | some rh => (s3, acts1 ++ [Action.send cmd_line], Except.ok (some (rh result prompt)))
        | none => (s3, acts1 ++ [Action.send cmd_line], Except.ok none)

/-- Translation of _do_cmd_no_resp (source lines 583-612): builder lookup,
wakeup, then — unlike _do_cmd_resp — only `self._linebuf = ''` is cleared
(source line 606) before the send; returns InstErrorCode.OK without waiting
for any response. -/
def do_cmd_no_resp (proto : CRProto) (arrive : Nat → Bytes) (cmd : String)
    (args : List String) (timeout : Nat) (s : PState) :
    PState × List Action × Except Err InstErrorCode :=
  match dictGet proto.build_handlers cmd with
  | none => (s, [], Except.error Err.badCommand)
  | some build =>
    let cmd_line := build cmd args
    match wakeup proto.prompts arrive timeout s with
    | (s1, acts1, Except.error e) => (s1, acts1, Except.error e)
    | (s1, acts1, Except.ok _prompt) =>
      let s2 : PState := { s1 with linebuf := [] }
      (s2, acts1 ++ [Action.send cmd_line], Except.ok InstErrorCode.OK)

/-! ## Script variant (source lines 365-402) -/

/-- Translation of ScriptInstrumentProtocol.run_script (source lines 392-401):
the method body consists solely of its docstring — it executes no statement,
performs no transport action, and implicitly returns None. -/
def run_script (_script : String) : List Action × Option Unit :=
  ([], none)

/-! ## Resource command enumeration (source lines 272-276 and 431-438) -/

/-- An instrument protocol object as seen by get_resource_commands: its
attribute names (`dir(self)`) and its builder table (an instance attribute
whose keys are not attributes themselves). -/
structure ProtoObj where
  dirNames : List String
  build_handlers : List (String × (String → List String → Bytes))

/-- Translation of InstrumentProtocol.get_resource_commands (source lines
272-276): `[cmd for cmd in dir(self) if cmd.startswith('execute_')]`. -/
def get_resource_commands (p : ProtoObj) : List String :=
  p.dirNames.filter (fun cmd => ("execute_").toList.isPrefixOf cmd.toList)

/-- The registered command ids: the keys of the builder table populated via
_add_build_handler (source lines 431-438). -/
def builderKeys (p : ProtoObj) : List String :=
  p.build_handlers.map (fun kv => kv.1)

/-! ## Helper lemmas about the buffering and wakeup machinery -/

/-- The empty string is a suffix of every buffer. -/
lemma nil_isSuffixOf (l : List Char) : List.isSuffixOf [] l = true := by
  simp [List.isSuffixOf]

/-- Ticking `m` then `n` times is ticking `m + n` times. -/
lemma recvN_add (arrive : Nat → Bytes) :
    ∀ (m n : Nat) (s : PState), recvN arrive n (recvN arrive m s) = recvN arrive (m + n) s := by
  intro m
  induction m with
  | zero => intro n s; simp [recvN]
  | succ m ih =>
    intro n s
    have h1 : recvN arrive (m + 1) s = recvN arrive m (recv arrive s) := rfl
    have h2 : m + 1 + n = m + n + 1 := by omega
    rw [h1, ih, h2]
    rfl

/-- Each tick advances the clock by one. -/
lemma recvN_time (arrive : Nat → Bytes) :
    ∀ (n : Nat) (s : PState), (recvN arrive n s).time = s.time + n := by
  intro n
  induction n with
  | zero => intro s; rfl
  | succ n ih =>
    intro s
    have h1 : recvN arrive (n + 1) s = recvN arrive n (recv arrive s) := rfl
    rw [h1, ih]
    simp [recv]
    omega

/-- One unfolding of the wake loop. -/
lemma wakeupGo_eq (prompts : List Bytes) (arrive : Nat → Bytes) (remaining : Nat) (s : PState) :
    wakeupGo prompts arrive remaining s =
      match List.find? (fun p => p.isSuffixOf (recvN arrive 10 s).promptbuf) prompts with
      | some p => (recvN arrive 10 s, [Action.wake], Except.ok p)
      | none =>
        match remaining with
        | 0 => (recvN arrive 10 s, [Action.wake], Except.error Err.timeout)
        | r + 1 =>
          let w := wakeupGo prompts arrive r (recvN arrive 10 s)
          (w.1, Action.wake :: w.2.1, w.2.2) := by
  rw [wakeupGo.eq_def]

/-- When no inspected buffer ever matches, the wake loop runs all its
iterations and raises the timeout. -/
lemma wakeupGo_never (prompts : List Bytes) (arrive : Nat → Bytes) :
    ∀ (r : Nat) (s : PState),
      (∀ k, k ≤ 10 * (r + 1) →
        List.find? (fun p => p.isSuffixOf (recvN arrive k s).promptbuf) prompts = none) →
      wakeupGo prompts arrive r s =
        (recvN arrive (10 * (r + 1)) s, List.replicate (r + 1) Action.wake,
         Except.error Err.timeout) := by
  intro r
  induction r with
  | zero =>
    intro s h
    have h10 := h 10 (by omega)
    rw [wakeupGo_eq, h10]
    norm_num [List.replicate]
  | succ r ih =>
    intro s h
    have h10 := h 10 (by omega)
    have htail : ∀ k, k ≤ 10 * (r + 1) →
        List.find? (fun p => p.isSuffixOf (recvN arrive k (recvN arrive 10 s)).promptbuf)
          prompts = none := by
      intro k hk
      rw [recvN_add]
      exact h (10 + k) (by omega)
    have ihs := ih (recvN arrive 10 s) htail
    have harith : 10 + 10 * (r + 1) = 10 * (r + 1 + 1) := by ring
    rw [wakeupGo_eq, h10]
    simp only [ihs, recvN_add, harith, List.replicate_succ]

/-- A prompt returned by the wake loop is the first configured prompt, in
iteration order, that is a suffix of the final prompt buffer. -/
lemma wakeupGo_ok_find (prompts : List Bytes) (arrive : Nat → Bytes) :
    ∀ (r : Nat) (s s' : PState) (acts : List Action) (p : Bytes),
      wakeupGo prompts arrive r s = (s', acts, Except.ok p) →
      List.find? (fun q => q.isSuffixOf s'.promptbuf) prompts = some p := by
  intro r
  induction r with
  | zero =>
    intro s s' acts p h
    rw [wakeupGo_eq] at h
    cases hf : List.find? (fun q => q.isSuffixOf (recvN arrive 10 s).promptbuf) prompts with
    | some q =>
      rw [hf] at h
      simp only [Prod.mk.injEq] at h
      obtain ⟨hs, -, hp⟩ := h
      injection hp with hqp
      subst hqp
      rw [← hs]
      exact hf
    | none =>
      rw [hf] at h
      simp only [Prod.mk.injEq] at h
      exact absurd h.2.2 (by simp)
  | succ r ih =>
    intro s s' acts p h
    rw [wakeupGo_eq] at h
    cases hf : List.find? (fun q => q.isSuffixOf (recvN arrive 10 s).promptbuf) prompts with
    | some q =>
      rw [hf] at h
      simp only [Prod.mk.injEq] at h
      obtain ⟨hs, -, hp⟩ := h
      injection hp with hqp
      subst hqp
      rw [← hs]
      exact hf
    | none =>
      rw [hf] at h
      simp only [Prod.mk.injEq] at h
      obtain ⟨hs, -, hp⟩ := h
      exact ih (recvN arrive 10 s) s'
        (wakeupGo prompts arrive r (recvN arrive 10 s)).2.1 p (by rw [← hs, ← hp])

/-- If some wake cycle within the budget sees a matching buffer, the loop
succeeds (it returns at the first such cycle). -/
lemma wakeupGo_complete (prompts : List Bytes) (arrive : Nat → Bytes) :
    ∀ (r : Nat) (s : PState),
      (∃ k, k ≤ r ∧
        (List.find? (fun p => p.isSuffixOf (recvN arrive (10 * (k + 1)) s).promptbuf)
          prompts).isSome) →
      ∃ p, (wakeupGo prompts arrive r s).2.2 = Except.ok p := by
  intro r
  induction r with
  | zero =>
    intro s h
    obtain ⟨k, hk, hsome⟩ := h
    interval_cases k
    rw [show (10 : Nat) * (0 + 1) = 10 from by norm_num] at hsome
    obtain ⟨q, hq⟩ := Option.isSome_iff_exists.mp hsome
    rw [wakeupGo_eq, hq]
    exact ⟨q, rfl⟩
  | succ r ih =>
    intro s h
    cases hf : List.find? (fun q => q.isSuffixOf (recvN arrive 10 s).promptbuf) prompts with
    | some q =>
      rw [wakeupGo_eq, hf]
      exact ⟨q, rfl⟩
    | none =>
      obtain ⟨k, hk, hsome⟩ := h
      cases k with
      | zero =>
        rw [show (10 : Nat) * (0 + 1) = 10 from by norm_num] at hsome
        rw [hf] at hsome
        simp at hsome
      | succ k =>
        have harith : 10 + 10 * (k + 1) = 10 * (k + 1 + 1) := by ring
        have hsome' : (List.find? (fun p => p.isSuffixOf
            (recvN arrive (10 * (k + 1)) (recvN arrive 10 s)).promptbuf) prompts).isSome := by
          rw [recvN_add, harith]
          exact hsome
        obtain ⟨p, hp⟩ := ih (recvN arrive 10 s) ⟨k, by omega, hsome'⟩
        rw [wakeupGo_eq, hf]
        exact ⟨p, hp⟩

/-! ## Claim theorems -/

/-- C1: the claim says `configure` succeeds for "ethernet" and
"slow_ethernet" and fails with a connection error, state untouched, for
everything else. The code disagrees on "ethernet": the first `if` builds the
transport handle and client, but the following separate `if`/`elif`/`else`
chain then raises InstrumentConnectionException from its `else` arm, so
configuring for plain ethernet mutates the handles AND raises. The
"slow_ethernet", "serial" and unknown-method behaviors are as claimed. -/
theorem configure_method_dispatch :
    configure ⟨none, none⟩ ⟨InterfaceType.ETHERNET, "10.0.0.5", 4001, "localhost", 8888⟩ =
      ({ _logger := some ⟨"10.0.0.5", 4001, 8888, 0⟩,
         _logger_client := some ⟨"localhost", 8888⟩ }, Except.error Err.connection) ∧
    configure ⟨none, none⟩ ⟨InterfaceType.SLOW_ETHERNET, "10.0.0.5", 4001, "localhost", 8888⟩ =
      ({ _logger := some ⟨"10.0.0.5", 4001, 8888, 1/10⟩,
         _logger_client := some ⟨"localhost", 8888⟩ }, Except.ok InstErrorCode.OK) ∧
    (∀ s : ConnHandles,
      configure s ⟨InterfaceType.SERIAL, "10.0.0.5", 4001, "localhost", 8888⟩ =
        (s, Except.error Err.connection)) ∧
    (∀ s : ConnHandles,
      configure s ⟨"radio", "10.0.0.5", 4001, "localhost", 8888⟩ =
        (s, Except.error Err.connection)) :=
  ⟨rfl, rfl, fun _ => rfl, fun _ => rfl⟩

/-- C2: for a command id with no registered builder, _do_cmd_resp raises the
bad-command protocol error before any device I/O: the action trace is empty
(no wake cycle, no send) and the buffer state is untouched, for every
argument list, timeout, expected prompt and buffer state. -/
theorem do_cmd_resp_unregistered (proto : CRProto) (arrive : Nat → Bytes) (cmd : String)
    (args : List String) (timeout : Nat) (expected_prompt : Option Bytes) (s : PState)
    (h : dictGet proto.build_handlers cmd = none) :
    do_cmd_resp proto arrive cmd args timeout expected_prompt s =
      (s, [], Except.error Err.badCommand) := by
  unfold do_cmd_resp
  rw [h]

/-- Witness for C2: a protocol with empty tables rejects command "STOP"
without touching the transport. -/
theorem do_cmd_resp_unregistered_witness :
    do_cmd_resp ⟨[], [], [], []⟩ (fun _ => []) ("STOP") [] 10 none ⟨[], [], 0⟩ =
      (⟨[], [], 0⟩, [], Except.error Err.badCommand) :=
  do_cmd_resp_unregistered ⟨[], [], [], []⟩ (fun _ => []) ("STOP") [] 10 none ⟨[], [], 0⟩ rfl

/-- C4: ParameterDictVal.update returns the descriptor's name iff the
compiled pattern matches the input; on a match the stored value becomes the
extraction function applied to the match object; on a miss the descriptor —
its value included — is unchanged and the not-matched signal (Python False,
here `none`) is returned. -/
theorem paramDictVal_update_spec {M V : Type} (d : ParameterDictVal M V) (t : String) :
    ((d.update t).2 = some d.name ↔ (d.regexMatch t).isSome) ∧
    (∀ m, d.regexMatch t = some m →
      (d.update t).1.value = some (d.f_getval m) ∧ (d.update t).2 = some d.name) ∧
    (d.regexMatch t = none → (d.update t).1 = d ∧ (d.update t).2 = none) := by
  cases h : d.regexMatch t <;> simp [ParameterDictVal.update, h]

/-- A concrete descriptor for exercising update: matches exactly the text
"depth=42", extracting the length of the captured digits. -/
def depthDescriptor : ParameterDictVal String Nat :=
  { name := "depth",
    regexMatch := fun t => if t = "depth=42" then some ("42") else none,
    f_getval := fun m => m.length,
    f_format := fun v => toString v,
    value := none }

/-- Witness for C4 at a concrete descriptor: a matching text updates the
value and returns the name, a non-matching text changes nothing. -/
theorem paramDictVal_update_witness :
    (depthDescriptor.update ("depth=42")).2 = some (depthDescriptor.name) ∧
    (depthDescriptor.update ("depth=42")).1.value = some 2 ∧
    (depthDescriptor.update ("zzz")).1 = depthDescriptor ∧
    (depthDescriptor.update ("zzz")).2 = none :=
  have hm : depthDescriptor.regexMatch ("depth=42") = some ("42") := rfl
  have hn : depthDescriptor.regexMatch ("zzz") = none := rfl
  ⟨((paramDictVal_update_spec depthDescriptor ("depth=42")).2.1 ("42") hm).2,
   ((paramDictVal_update_spec depthDescriptor ("depth=42")).2.1 ("42") hm).1,
   ((paramDictVal_update_spec depthDescriptor ("zzz")).2.2 hn).1,
   ((paramDictVal_update_spec depthDescriptor ("zzz")).2.2 hn).2⟩

/-- C5 counterexample: with no live pid, connect launches the process (pid
4242 here) and attaches, but returns the pre-launch pid query result — the
falsy no-pid value — not the launched process's identifier. -/
theorem connect_returns_stale_pid_cex :
    connect none 4242 = ([ConnAction.launchProcess 4242, ConnAction.attach], Except.ok none) ∧
    (connect none 4242).2 ≠ Except.ok (some 4242) := by
  refine ⟨rfl, ?_⟩
  intro h
  rw [show (connect none 4242).2 = Except.ok none from rfl] at h
  injection h with h2
  exact Option.noConfusion h2

/-- C5 amended: when the pid query is falsy (no transport process running),
connect launches the external process, attaches the data callback, and
returns the stale pre-launch query result (`return logger_pid`, source line
176) rather than the launched pid. -/
theorem connect_launch_attach (pidQuery : Option Nat) (launchedPid : Nat)
    (h : pidTruthy pidQuery = false) :
    connect pidQuery launchedPid =
      ([ConnAction.launchProcess launchedPid, ConnAction.attach], Except.ok pidQuery) := by
  simp [connect, h]

/-- Witness for the amended C5. -/
theorem connect_launch_attach_witness :
    connect none 7 = ([ConnAction.launchProcess 7, ConnAction.attach], Except.ok none) :=
  connect_launch_attach none 7 rfl

/-- A registered descriptor fixture for the parameter dictionary. -/
def pDesc : ParameterDictVal Unit Nat :=
  { name := "p", regexMatch := fun _ => none, f_getval := fun _ => 0,
    f_format := fun _ => "", value := some 1 }

/-- A one-entry parameter dictionary holding `pDesc` under its name. -/
def paramsFixture : List (String × PEntry Unit Nat) := [("p", PEntry.desc pDesc)]

/-- C6: the claim says a set followed by a get returns the written value and
the dictionary keeps a descriptor per name. The code's _set_param_dict stores
the bare value itself in place of the descriptor
(`self._parameters[name] = value`), so the shape is destroyed and the
subsequent `_get_param_dict` — which projects `.value` — raises
AttributeError instead of returning the value. -/
theorem set_param_dict_breaks_get :
    get_param_dict paramsFixture ("p") = Except.ok (some 1) ∧
    set_param_dict paramsFixture ("p") 5 = [("p", PEntry.raw 5)] ∧
    get_param_dict (set_param_dict paramsFixture ("p") 5) ("p") =
      Except.error PyErr.attributeError :=
  ⟨rfl, rfl, rfl⟩

/-- C8: the claim says run_script on "S=^C\nD=0.5\nS=1" performs exactly two
sends with a 0.5 s delay between them. The method body of run_script is
empty (it consists only of its docstring), so the call performs zero
transport actions and returns None — contradicting both the claim and the
class's own docstring, which spells out the send/delay semantics. -/
theorem run_script_empty : run_script ("S=^C\nD=0.5\nS=1") = ([], none) := rfl

/-- Attribute names of an InstrumentProtocol-family instance, as enumerated
by `dir(self)` (dunder names omitted — none starts with "execute_"). -/
def baseDirNames : List String :=
  ["announce_to_driver", "attach", "configure", "connect", "detach", "disconnect",
   "execute", "execute_direct", "get", "get_capabilities", "get_current_state",
   "get_resource_commands", "get_resource_params", "initialize", "reset", "set"]

/-- A protocol object with one registered builder under command id "FOO". -/
def protoFoo : ProtoObj := ⟨baseDirNames, [("FOO", fun _ _ => ['f'])]⟩

/-- C9 counterexample: with builder table `{FOO}`, get_resource_commands
returns ["execute_direct"] — the `execute_`-prefixed attribute names — and
not the builder-table keys. -/
theorem get_resource_commands_cex :
    get_resource_commands protoFoo = ["execute_direct"] ∧
    builderKeys protoFoo = ["FOO"] ∧
    get_resource_commands protoFoo ≠ builderKeys protoFoo := by
  refine ⟨by decide, rfl, by decide⟩

/-- C9 amended: get_resource_commands returns exactly the attribute names of
the instance that start with "execute_" (reflection over `dir(self)`),
independent of the builder table; builder-table keys are dict keys, not
attributes, and never appear. -/
theorem get_resource_commands_spec (p : ProtoObj) (c : String) :
    (c ∈ get_resource_commands p ↔
      c ∈ p.dirNames ∧ ("execute_").toList.isPrefixOf c.toList = true) ∧
    (∀ b, get_resource_commands { p with build_handlers := b } = get_resource_commands p) :=
  ⟨List.mem_filter, fun _ => rfl⟩

/-- Witness for the amended C9. -/
theorem get_resource_commands_spec_witness :
    ("execute_direct") ∈ get_resource_commands protoFoo :=
  (get_resource_commands_spec protoFoo ("execute_direct")).1.mpr ⟨by decide, by decide⟩

/-- C3: _wakeup first clears the prompt buffer (so its behavior is
independent of the buffer's prior contents); if the arriving bytes never
make any inspected prompt buffer end with a configured prompt it terminates
by raising the timeout error after exactly timeout + 1 wake cycles of one
second each (hence within timeout + 1 seconds); whenever it returns a
prompt, that prompt is the first one in the configured set's iteration order
whose text is a suffix of the prompt buffer; and if some wake cycle within
the budget sees a matching buffer, it does return a prompt. -/
theorem wakeup_spec (prompts : List Bytes) (arrive : Nat → Bytes) (timeout : Nat)
    (s : PState) :
    (∀ pb, wakeup prompts arrive timeout { s with promptbuf := pb } =
        wakeup prompts arrive timeout s) ∧
    ((∀ k, k ≤ 10 * (timeout + 1) →
        List.find? (fun p => p.isSuffixOf
          (recvN arrive k { s with promptbuf := [] }).promptbuf) prompts = none) →
      (wakeup prompts arrive timeout s).2.2 = Except.error Err.timeout ∧
      (wakeup prompts arrive timeout s).1.time = s.time + 10 * (timeout + 1)) ∧
    (∀ s' acts p, wakeup prompts arrive timeout s = (s', acts, Except.ok p) →
      List.find? (fun q => q.isSuffixOf s'.promptbuf) prompts = some p) ∧
    ((∃ k, k ≤ timeout ∧
        (List.find? (fun p => p.isSuffixOf
          (recvN arrive (10 * (k + 1)) { s with promptbuf := [] }).promptbuf)
          prompts).isSome) →
      ∃ p, (wakeup prompts arrive timeout s).2.2 = Except.ok p) := by
  refine ⟨fun pb => rfl, ?_, ?_, ?_⟩
  · intro h
    have hnever := wakeupGo_never prompts arrive timeout { s with promptbuf := [] } h
    unfold wakeup
    rw [hnever]
    exact ⟨rfl, by rw [recvN_time]⟩
  · intro s' acts p h
    exact wakeupGo_ok_find prompts arrive timeout _ s' acts p h
  · intro h
    exact wakeupGo_complete prompts arrive timeout _ h

/-- Witness for C3: with a silent transport, wakeup with prompt set
containing only "A" and timeout 1 raises the timeout error; with a transport
that delivers "A" during the first cycle, it returns a prompt. -/
theorem wakeup_spec_witness :
    (wakeup [['A']] (fun _ => []) 1 ⟨[], [], 0⟩).2.2 = Except.error Err.timeout ∧
    (∃ p, (wakeup [['A']] (fun t => if t = 0 then ['A'] else []) 1 ⟨[], [], 0⟩).2.2 =
      Except.ok p) :=
  ⟨((wakeup_spec [['A']] (fun _ => []) 1 ⟨[], [], 0⟩).2.1 (by decide)).1,
   (wakeup_spec [['A']] (fun t => if t = 0 then ['A'] else []) 1 ⟨[], [], 0⟩).2.2.2
     ⟨0, by omega, by decide⟩⟩

/-- The builder registered for command "GO" in the C7 fixture. -/
def buildGo : String → List String → Bytes := fun _ _ => ['g', '\r']

/-- A command-response protocol fixture: one prompt "P", one builder. -/
def protoGo : CRProto := ⟨[['P']], ['\r'], [("GO", buildGo)], []⟩

/-- A transport that delivers "P" during the very first tick and then stays
silent. -/
def arriveP : Nat → Bytes := fun t => if t = 0 then ['P'] else []

/-- C7 counterexample: a successful _do_cmd_no_resp run after which the
prompt buffer still holds the wakeup prompt "P". Only the line buffer was
cleared before the send (source line 606); had both buffers been cleared as
the claim states, the prompt buffer would be empty, since nothing arrives
after the send in this run. -/
theorem do_cmd_no_resp_promptbuf_cex :
    (do_cmd_no_resp protoGo arriveP ("GO") [] 1 ⟨['z'], ['q'], 0⟩).2.2 =
      Except.ok InstErrorCode.OK ∧
    (do_cmd_no_resp protoGo arriveP ("GO") [] 1 ⟨['z'], ['q'], 0⟩).1.linebuf = [] ∧
    (do_cmd_no_resp protoGo arriveP ("GO") [] 1 ⟨['z'], ['q'], 0⟩).1.promptbuf = ['P'] :=
  ⟨rfl, rfl, rfl⟩

/-- C7 amended: for a registered command, _do_cmd_no_resp performs the same
steps 1-5 as _do_cmd_resp except that after a successful wakeup it clears
only the line buffer — the prompt buffer keeps the bytes accumulated during
wakeup — then transmits the built string and returns the plain success
marker without waiting for or parsing a response. -/
theorem do_cmd_no_resp_steps (proto : CRProto) (arrive : Nat → Bytes) (cmd : String)
    (args : List String) (timeout : Nat) (s s1 : PState) (acts : List Action)
    (build : String → List String → Bytes) (p : Bytes)
    (hb : dictGet proto.build_handlers cmd = some build)
    (hw : wakeup proto.prompts arrive timeout s = (s1, acts, Except.ok p)) :
    do_cmd_no_resp proto arrive cmd args timeout s =
      ({ s1 with linebuf := [] }, acts ++ [Action.send (build cmd args)],
       Except.ok InstErrorCode.OK) := by
  unfold do_cmd_no_resp
  rw [hb, hw]

/-- Witness for the amended C7, at the same fixture as the counterexample:
the final state keeps promptbuf = "P", the trace is one wake cycle followed
by the send of the built string, and the result is the success marker. -/
theorem do_cmd_no_resp_steps_witness :
    do_cmd_no_resp protoGo arriveP ("GO") [] 1 ⟨['z'], ['q'], 0⟩ =
      (⟨[], ['P'], 10⟩, [Action.wake, Action.send ['g', '\r']],
       Except.ok InstErrorCode.OK) :=
  do_cmd_no_resp_steps protoGo arriveP ("GO") [] 1 ⟨['z'], ['q'], 0⟩
    ⟨['z', 'P'], ['P'], 10⟩ [Action.wake] buildGo ['P'] rfl rfl

/-- C10: prompt matching is plain suffix comparison, and the empty string is
a suffix of every buffer. _get_response with expected_prompt = "" therefore
returns immediately — no tick elapses, no timeout is possible — with the
pair ("", current line buffer); and when the configured prompt set contains
"", _wakeup returns some prompt at its very first check (a single wake
cycle). -/
theorem empty_prompt_matches (arrive : Nat → Bytes) (prompts : List Bytes) (timeout : Nat)
    (s : PState) :
    getResponse arrive prompts timeout (some []) s = (s, Except.ok ([], s.linebuf)) ∧
    ([] ∈ prompts →
      (wakeup prompts arrive timeout s).2.1 = [Action.wake] ∧
      ∃ p, (wakeup prompts arrive timeout s).2.2 = Except.ok p) := by
  constructor
  · show getRespGo arrive [[]] s.time (10 * timeout) (10 * timeout + 1) s = _
    rw [getRespGo.eq_def]
    simp [scanPrompts, nil_isSuffixOf]
  · intro h
    have hsome : (List.find? (fun p => p.isSuffixOf
        (recvN arrive 10 { s with promptbuf := [] }).promptbuf) prompts).isSome := by
      rw [List.find?_isSome]
      exact ⟨[], h, nil_isSuffixOf _⟩
    obtain ⟨q, hq⟩ := Option.isSome_iff_exists.mp hsome
    unfold wakeup
    rw [wakeupGo_eq, hq]
    exact ⟨rfl, q, rfl⟩

/-- Witness for C10: a concrete noisy transport and prompt set containing
the empty string. -/
theorem empty_prompt_matches_witness :
    getResponse (fun _ => ['x']) [['A'], []] 3 (some []) ⟨['l'], ['b'], 5⟩ =
      (⟨['l'], ['b'], 5⟩, Except.ok ([], ['l'])) ∧
    ∃ p, (wakeup [['A'], []] (fun _ => ['x']) 3 ⟨['l'], ['b'], 5⟩).2.2 = Except.ok p :=
  ⟨(empty_prompt_matches (fun _ => ['x']) [['A'], []] 3 ⟨['l'], ['b'], 5⟩).1,
   ((empty_prompt_matches (fun _ => ['x']) [['A'], []] 3 ⟨['l'], ['b'], 5⟩).2
     (by decide)).2⟩

end MI
